import Mathlib

/-!
Verification of the model-download utility in `Crowd/m.py`.

The script has three parts:
* `download_yolov8n_models` (the Acquirer): creates the `models` directory,
  obtains `yolov8n.pt` via the YOLO loader, relocates it to
  `models/yolov8n.pt`, then (if `models/yolov8n.onnx` is absent) loads the
  relocated model and exports it to ONNX at input shape 640x640, relocating
  the exported file as well.  Everything after the `os.makedirs` call sits
  in a `try` whose handler prints the error and a remediation hint.
* `verify_downloads` (the Verifier): reports existence of the two artifact
  paths and returns the conjunction.
* the entry point: Acquirer, then Verifier, then one of two summary lines.

The embedding models the filesystem as an association list from path to
content (a byte list); `os.path.exists` is lookup success.  `os.rename`
follows POSIX semantics: the destination is silently replaced.  The
external library calls (`YOLO(...)`, `model.export(...)`) and `os.makedirs`
are opaque: an `Env` fixes, for one run, whether each raises and which
working-directory file a successful call deposits.  Every run also records
the printed lines and a trace of external calls, so claims about console
output and about which library operations were invoked are statable.
-/

namespace DivyaDrishti

/-- File contents, modelled as byte lists (only emptiness and equality of
contents matter to the specification). -/
abbrev Content := List Nat

/-- The filesystem: an association list from path to file content.
Directories are not tracked; no claim inspects a directory path. -/
abbrev FS := List (String × Content)

/-- Content stored at a path, if the file exists. -/
def FS.lookup : FS → String → Option Content
  | [], _ => none
  | (p, c) :: rest, q => if p = q then some c else FS.lookup rest q

/-- `os.path.exists`. -/
def FS.pathExists (fs : FS) (p : String) : Bool := (FS.lookup fs p).isSome

/-- Remove every entry at a path. -/
def FS.remove : FS → String → FS
  | [], _ => []
  | (p, c) :: rest, q => if p = q then FS.remove rest q else (p, c) :: FS.remove rest q

/-- Create or overwrite the file at a path. -/
def FS.setFile (fs : FS) (p : String) (c : Content) : FS :=
  (p, c) :: FS.remove fs p

/-- `os.rename src dst` with POSIX semantics: `dst` is silently replaced.
The script only calls it after an existence check on `src`; a missing
source leaves the filesystem unchanged. -/
def FS.rename (fs : FS) (src dst : String) : FS :=
  match FS.lookup fs src with
  | none => fs
  | some c => FS.setFile (FS.remove fs src) dst c

/-- Observable external calls made by the script. -/
inductive Event where
  | makedirsCall (dir : String)
  | yoloLoad (ident : String)
  | exportCall (format : String) (imgsz : List Nat)
  | renameOp (src dst : String)
  deriving DecidableEq, Repr

/-- Behaviour of the external world for one run: whether `os.makedirs`
raises (carrying the message), and the outcomes of the three opaque
library calls.  A successful loader call may deposit `yolov8n.pt` in the
working directory (the fresh-download case) or deposit nothing (the
already-cached case); likewise a successful export may or may not deposit
`yolov8n.onnx` in the working directory.  This matches the defensive
existence checks the script performs after each call. -/
structure Env where
  makedirsResult : Option String
  downloadResult : Except String (Option Content)
  loadPtResult : Except String Unit
  exportResult : Except String (Option Content)

/-- Whether the script terminated normally or by an uncaught exception. -/
inductive Outcome where
  | normal
  | raised (msg : String)
  deriving DecidableEq, Repr

/-- Result of running a part of the script: final filesystem, printed
lines in order, external-call trace, and termination mode. -/
structure RunResult where
  fs : FS
  out : List String
  events : List Event
  outcome : Outcome
  deriving DecidableEq, Repr

/-- Apply an optional working-directory deposit made by an external call. -/
def applyDeposit (fs : FS) (name : String) : Option Content → FS
  | none => fs
  | some c => FS.setFile fs name c

/-- Lines 17-18 of `m.py`: move a freshly produced `yolov8n.pt` from the
working directory to `models/yolov8n.pt`, guarded by an existence check. -/
def relocatePt (fs : FS) : FS × List Event :=
  if FS.pathExists fs "yolov8n.pt" then
    (FS.rename fs "yolov8n.pt" "models/yolov8n.pt",
     [Event.renameOp "yolov8n.pt" "models/yolov8n.pt"])
  else (fs, [])

/-- Lines 22-29 of `m.py`: if `models/yolov8n.onnx` is absent, load the
model from `models/yolov8n.pt`, export to ONNX at shape `[640, 640]`, and
move a working-directory `yolov8n.onnx` into place if one appeared.
`Sum.inr` carries an exception with the state and trace at the raise. -/
def convertStep (env : Env) (fs : FS) : (FS × List Event) ⊕ (String × FS × List Event) :=
  if FS.pathExists fs "models/yolov8n.onnx" then .inl (fs, [])
  else
    match env.loadPtResult with
    | .error e => .inr (e, fs, [Event.yoloLoad "models/yolov8n.pt"])
    | .ok _ =>
      match env.exportResult with
      | .error e =>
          .inr (e, fs, [Event.yoloLoad "models/yolov8n.pt",
                        Event.exportCall "onnx" [640, 640]])
      | .ok dep2 =>
          let fs3 := applyDeposit fs "yolov8n.onnx" dep2
          if FS.pathExists fs3 "yolov8n.onnx" then
            .inl (FS.rename fs3 "yolov8n.onnx" "models/yolov8n.onnx",
                  [Event.yoloLoad "models/yolov8n.pt",
                   Event.exportCall "onnx" [640, 640],
                   Event.renameOp "yolov8n.onnx" "models/yolov8n.onnx"])
          else
            .inl (fs3, [Event.yoloLoad "models/yolov8n.pt",
                        Event.exportCall "onnx" [640, 640]])

/-- Filesystem reached by a conversion step, whether it returned or raised. -/
def stepFS : (FS × List Event) ⊕ (String × FS × List Event) → FS
  | .inl (fs, _) => fs
  | .inr (_, fs, _) => fs

/-- Events emitted by a conversion step, whether it returned or raised. -/
def stepEvents : (FS × List Event) ⊕ (String × FS × List Event) → List Event
  | .inl (_, ev) => ev
  | .inr (_, _, ev) => ev

/-- Filesystem reached by the try block, whether it returned or raised. -/
def tryFS : (FS × List String × List Event) ⊕ (String × FS × List String × List Event) → FS
  | .inl (fs, _, _) => fs
  | .inr (_, fs, _, _) => fs

/-- Events emitted by the try block, whether it returned or raised. -/
def tryEvents : (FS × List String × List Event) ⊕ (String × FS × List String × List Event) → List Event
  | .inl (_, _, ev) => ev
  | .inr (_, _, _, ev) => ev

/-- The `try` block of `download_yolov8n_models` (lines 10-33 of `m.py`).
`Sum.inr` is an exception escaping the block: message, filesystem at the
raise point, lines printed so far, calls made so far. -/
def acquirerTry (env : Env) (fs0 : FS) :
    (FS × List String × List Event) ⊕ (String × FS × List String × List Event) :=
  match env.downloadResult with
  | .error e =>
      .inr (e, fs0, ["Downloading YOLOv8n PyTorch model..."],
            [Event.yoloLoad "yolov8n.pt"])
  | .ok dep =>
      let fs1 := applyDeposit fs0 "yolov8n.pt" dep
      let step3 := relocatePt fs1
      let ev2 := Event.yoloLoad "yolov8n.pt" :: step3.2
      match convertStep env step3.1 with
      | .inr (e, fsE, evC) =>
          .inr (e, fsE,
                ["Downloading YOLOv8n PyTorch model...",
                 "Converting to ONNX format..."],
                ev2 ++ evC)
      | .inl (fs4, evC) =>
          .inl (fs4,
                ["Downloading YOLOv8n PyTorch model...",
                 "Converting to ONNX format...",
                 "Download complete!",
                 "PyTorch model saved to: models/yolov8n.pt",
                 "ONNX model saved to: models/yolov8n.onnx"],
                ev2 ++ evC)

/-- `download_yolov8n_models` (lines 5-38 of `m.py`).  `os.makedirs` at
line 8 runs before the `try`, so a failure there escapes the function;
any exception inside the `try` is caught by the handler at lines 35-38,
which prints the message and a remediation hint and returns normally. -/
def download_yolov8n_models (env : Env) (fs0 : FS) : RunResult :=
  match env.makedirsResult with
  | some e =>
      { fs := fs0, out := [], events := [Event.makedirsCall "models"],
        outcome := .raised e }
  | none =>
      match acquirerTry env fs0 with
      | .inl (fs, out, ev) =>
          { fs := fs, out := out,
            events := Event.makedirsCall "models" :: ev, outcome := .normal }
      | .inr (e, fs, out, ev) =>
          { fs := fs,
            out := out ++
              ["Error downloading models: " ++ e,
               "Please make sure you have the latest ultralytics package installed:",
               "pip install --upgrade ultralytics"],
            events := Event.makedirsCall "models" :: ev, outcome := .normal }

/-- The fixed name-to-path mapping of `verify_downloads` (lines 42-45),
in the iteration order of the Python dict. -/
def required_files : List (String × String) :=
  [("PyTorch", "models/yolov8n.pt"), ("ONNX", "models/yolov8n.onnx")]

/-- One status line of `verify_downloads` (line 49). -/
def verifyLine (fs : FS) (name path : String) : String :=
  name ++ " model: " ++ (if FS.pathExists fs path then "Found" else "Missing")
       ++ " at " ++ path

/-- `verify_downloads` (lines 40-54 of `m.py`): a pure function of the
filesystem returning the boolean result and the printed lines; it performs
no filesystem changes (its type has no filesystem output). -/
def verify_downloads (fs : FS) : Bool × List String :=
  required_files.foldl
    (fun acc np =>
      (acc.1 && FS.pathExists fs np.2, acc.2 ++ [verifyLine fs np.1 np.2]))
    (true, [])

/-- The `__main__` block (lines 56-64 of `m.py`): Acquirer, then Verifier,
then one of two summary lines.  An exception escaping the Acquirer
(only possible from `os.makedirs`) propagates: the Verifier never runs and
the process terminates abnormally. -/
def mainRun (env : Env) (fs0 : FS) : RunResult :=
  let acq := download_yolov8n_models env fs0
  match acq.outcome with
  | .raised e =>
      { fs := acq.fs, out := acq.out, events := acq.events,
        outcome := .raised e }
  | .normal =>
      let v := verify_downloads acq.fs
      { fs := acq.fs,
        out := acq.out ++ v.2 ++
          [if v.1 then "All model files downloaded successfully!"
           else "Some model files failed to download. Please check errors above."],
        events := acq.events, outcome := .normal }

/-! ### Helper lemmas about the filesystem model -/

theorem FS.lookup_remove (fs : FS) (q p : String) :
    FS.lookup (FS.remove fs q) p = if q = p then none else FS.lookup fs p := by
  induction fs with
  | nil => simp [FS.remove, FS.lookup]
  | cons hd tl ih =>
      obtain ⟨k, c⟩ := hd
      by_cases h1 : k = q
      · by_cases hqp : q = p
        · subst h1; subst hqp; simp [FS.remove, ih]
        · have hp : ¬k = p := by rw [h1]; exact hqp
          simp [FS.remove, FS.lookup, h1, hp, ih, hqp]
      · by_cases hp : k = p
        · have hqp : ¬q = p := fun h => h1 (by rw [hp, h])
          have hpq : ¬p = q := fun h => hqp h.symm
          simp [FS.remove, FS.lookup, h1, hp, hqp, hpq]
        · simp [FS.remove, FS.lookup, h1, hp, ih]

theorem FS.lookup_setFile (fs : FS) (q : String) (c : Content) (p : String) :
    FS.lookup (FS.setFile fs q c) p = if q = p then some c else FS.lookup fs p := by
  by_cases h : q = p <;> simp [FS.setFile, FS.lookup, FS.lookup_remove, h]

theorem FS.lookup_rename_of_ne (fs : FS) (src dst p : String)
    (hs : src ≠ p) (hd : dst ≠ p) :
    FS.lookup (FS.rename fs src dst) p = FS.lookup fs p := by
  unfold FS.rename
  cases h : FS.lookup fs src with
  | none => rfl
  | some c => simp [FS.lookup_setFile, FS.lookup_remove, hs, hd]

theorem FS.lookup_rename_dst (fs : FS) (src dst : String) (c : Content)
    (h : FS.lookup fs src = some c) :
    FS.lookup (FS.rename fs src dst) dst = some c := by
  unfold FS.rename
  simp [h, FS.lookup_setFile]

theorem FS.lookup_rename_src (fs : FS) (src dst : String) (c : Content)
    (h : FS.lookup fs src = some c) (hne : dst ≠ src) :
    FS.lookup (FS.rename fs src dst) src = none := by
  unfold FS.rename
  simp [h, FS.lookup_setFile, FS.lookup_remove, hne]

theorem lookup_applyDeposit_of_ne (fs : FS) (name p : String) (dep : Option Content)
    (h : name ≠ p) :
    FS.lookup (applyDeposit fs name dep) p = FS.lookup fs p := by
  cases dep <;> simp [applyDeposit, FS.lookup_setFile, h]

/-- `relocatePt` only touches the two primary-artifact paths. -/
theorem relocatePt_lookup_other (fs : FS) (p : String)
    (h1 : p ≠ "yolov8n.pt") (h2 : p ≠ "models/yolov8n.pt") :
    FS.lookup (relocatePt fs).1 p = FS.lookup fs p := by
  unfold relocatePt
  split
  · exact FS.lookup_rename_of_ne fs _ _ p (fun h => h1 h.symm) (fun h => h2 h.symm)
  · rfl

/-- After `relocatePt`, the working-directory primary file is gone. -/
theorem relocatePt_clears_workdir (fs : FS) :
    FS.lookup (relocatePt fs).1 "yolov8n.pt" = none := by
  unfold relocatePt
  split
  · rename_i h
    rw [FS.pathExists, Option.isSome_iff_exists] at h
    obtain ⟨c, hc⟩ := h
    exact FS.lookup_rename_src fs _ _ c hc (by decide)
  · rename_i h
    rw [FS.pathExists] at h
    cases hl : FS.lookup fs "yolov8n.pt" with
    | none => rfl
    | some c => rw [hl] at h; simp at h

/-- If the working-directory primary file holds `c`, relocation installs
`c` at the output path. -/
theorem relocatePt_moves (fs : FS) (c : Content)
    (h : FS.lookup fs "yolov8n.pt" = some c) :
    FS.lookup (relocatePt fs).1 "models/yolov8n.pt" = some c := by
  unfold relocatePt
  rw [if_pos (by rw [FS.pathExists, h]; rfl)]
  exact FS.lookup_rename_dst fs _ _ c h

/-- If the working-directory primary file is absent, relocation is the
identity on the filesystem and emits no event. -/
theorem relocatePt_noop (fs : FS)
    (h : FS.lookup fs "yolov8n.pt" = none) :
    relocatePt fs = (fs, []) := by
  unfold relocatePt
  rw [if_neg (by rw [FS.pathExists, h]; simp)]

/-- Relocation preserves an already-present output-path primary file's
existence (its content may be replaced). -/
theorem relocatePt_preserves_modelsPt (fs : FS)
    (h : FS.pathExists fs "models/yolov8n.pt" = true) :
    FS.pathExists (relocatePt fs).1 "models/yolov8n.pt" = true := by
  unfold relocatePt
  split
  · rename_i hw
    rw [FS.pathExists, Option.isSome_iff_exists] at hw
    obtain ⟨c, hc⟩ := hw
    have := FS.lookup_rename_dst fs "yolov8n.pt" "models/yolov8n.pt" c hc
    simp [FS.pathExists, this]
  · exact h

/-- When the secondary artifact is already in place, the conversion step
is skipped entirely: no state change, no external call. -/
theorem convertStep_skip (env : Env) (fs : FS)
    (h : FS.pathExists fs "models/yolov8n.onnx" = true) :
    convertStep env fs = .inl (fs, []) := by
  unfold convertStep
  rw [if_pos h]

/-- The conversion step never touches paths other than `yolov8n.onnx` and
`models/yolov8n.onnx`: whatever branch it takes, other lookups are
unchanged. -/
theorem convertStep_lookup_other (env : Env) (fs : FS) (p : String)
    (h1 : p ≠ "yolov8n.onnx") (h2 : p ≠ "models/yolov8n.onnx") :
    FS.lookup (stepFS (convertStep env fs)) p = FS.lookup fs p := by
  have hs : "yolov8n.onnx" ≠ p := fun hh => h1 hh.symm
  have hd : "models/yolov8n.onnx" ≠ p := fun hh => h2 hh.symm
  unfold convertStep
  split
  · rfl
  · cases env.loadPtResult with
    | error e => rfl
    | ok u =>
        cases env.exportResult with
        | error e => rfl
        | ok dep2 =>
            simp only
            split
            · simp only [stepFS]
              rw [FS.lookup_rename_of_ne _ _ _ _ hs hd]
              exact lookup_applyDeposit_of_ne fs _ p dep2 hs
            · simp only [stepFS]
              exact lookup_applyDeposit_of_ne fs _ p dep2 hs

/-- The possible event lists emitted by the conversion step. -/
theorem convertStep_events_cases (env : Env) (fs : FS) :
    stepEvents (convertStep env fs) = [] ∨
    stepEvents (convertStep env fs) = [Event.yoloLoad "models/yolov8n.pt"] ∨
    stepEvents (convertStep env fs) =
      [Event.yoloLoad "models/yolov8n.pt", Event.exportCall "onnx" [640, 640]] ∨
    stepEvents (convertStep env fs) =
      [Event.yoloLoad "models/yolov8n.pt", Event.exportCall "onnx" [640, 640],
       Event.renameOp "yolov8n.onnx" "models/yolov8n.onnx"] := by
  unfold convertStep
  split
  · left; rfl
  · cases env.loadPtResult with
    | error e => right; left; rfl
    | ok u =>
        cases env.exportResult with
        | error e => right; right; left; rfl
        | ok dep2 =>
            simp only
            split
            · right; right; right; rfl
            · right; right; left; rfl

/-- The possible event lists emitted by the relocation step. -/
theorem relocatePt_events_cases (fs : FS) :
    (relocatePt fs).2 = [] ∨
    (relocatePt fs).2 = [Event.renameOp "yolov8n.pt" "models/yolov8n.pt"] := by
  unfold relocatePt
  split
  · right; rfl
  · left; rfl

/-- When `os.makedirs` succeeds, the Acquirer's final filesystem is the
try block's final filesystem. -/
theorem download_fs_eq_tryFS (env : Env) (fs0 : FS)
    (hmk : env.makedirsResult = none) :
    (download_yolov8n_models env fs0).fs = tryFS (acquirerTry env fs0) := by
  unfold download_yolov8n_models
  rw [hmk]
  cases h : acquirerTry env fs0 with
  | inl r => obtain ⟨fs, out, ev⟩ := r; rfl
  | inr r => obtain ⟨e, fs, out, ev⟩ := r; rfl

/-- When `os.makedirs` succeeds, the Acquirer's events are the makedirs
call followed by the try block's events. -/
theorem download_events_eq (env : Env) (fs0 : FS)
    (hmk : env.makedirsResult = none) :
    (download_yolov8n_models env fs0).events =
      Event.makedirsCall "models" :: tryEvents (acquirerTry env fs0) := by
  unfold download_yolov8n_models
  rw [hmk]
  cases h : acquirerTry env fs0 with
  | inl r => obtain ⟨fs, out, ev⟩ := r; rfl
  | inr r => obtain ⟨e, fs, out, ev⟩ := r; rfl

/-- When `os.makedirs` succeeds, the Acquirer returns normally: every
exception inside the try block is caught by the handler. -/
theorem download_outcome_normal (env : Env) (fs0 : FS)
    (hmk : env.makedirsResult = none) :
    (download_yolov8n_models env fs0).outcome = Outcome.normal := by
  unfold download_yolov8n_models
  rw [hmk]
  cases h : acquirerTry env fs0 with
  | inl r => obtain ⟨fs, out, ev⟩ := r; rfl
  | inr r => obtain ⟨e, fs, out, ev⟩ := r; rfl

/-- Decomposition of the try block's final filesystem when the loader
call succeeds: deposit, then relocation, then the conversion step. -/
theorem tryFS_ok (env : Env) (fs0 : FS) (dep : Option Content)
    (hdlr : env.downloadResult = .ok dep) :
    tryFS (acquirerTry env fs0) =
      stepFS (convertStep env (relocatePt (applyDeposit fs0 "yolov8n.pt" dep)).1) := by
  unfold acquirerTry
  rw [hdlr]
  simp only []
  cases h : convertStep env (relocatePt (applyDeposit fs0 "yolov8n.pt" dep)).1 with
  | inl r => obtain ⟨fs4, ev⟩ := r; rfl
  | inr r => obtain ⟨e, fsE, ev⟩ := r; rfl

/-- Decomposition of the try block's events when the loader call
succeeds. -/
theorem tryEvents_ok (env : Env) (fs0 : FS) (dep : Option Content)
    (hdlr : env.downloadResult = .ok dep) :
    tryEvents (acquirerTry env fs0) =
      Event.yoloLoad "yolov8n.pt" ::
        ((relocatePt (applyDeposit fs0 "yolov8n.pt" dep)).2 ++
         stepEvents (convertStep env (relocatePt (applyDeposit fs0 "yolov8n.pt" dep)).1)) := by
  unfold acquirerTry
  rw [hdlr]
  simp only []
  cases h : convertStep env (relocatePt (applyDeposit fs0 "yolov8n.pt" dep)).1 with
  | inl r => obtain ⟨fs4, ev⟩ := r; rfl
  | inr r => obtain ⟨e, fsE, ev⟩ := r; rfl

/-- If the loader call raises, the try block leaves the filesystem
untouched. -/
theorem tryFS_error (env : Env) (fs0 : FS) (e : String)
    (hdlr : env.downloadResult = .error e) :
    tryFS (acquirerTry env fs0) = fs0 := by
  unfold acquirerTry
  rw [hdlr]
  rfl

/-- If the loader call raises, the only external call of the try block
was the loader itself. -/
theorem tryEvents_error (env : Env) (fs0 : FS) (e : String)
    (hdlr : env.downloadResult = .error e) :
    tryEvents (acquirerTry env fs0) = [Event.yoloLoad "yolov8n.pt"] := by
  unfold acquirerTry
  rw [hdlr]
  rfl

/-- After a run whose loader call succeeded, the working directory holds
no `yolov8n.pt`: either it was relocated or it never appeared. -/
theorem download_clears_workdirPt (env : Env) (fs0 : FS) (dep : Option Content)
    (hmk : env.makedirsResult = none)
    (hdlr : env.downloadResult = .ok dep) :
    FS.lookup (download_yolov8n_models env fs0).fs "yolov8n.pt" = none := by
  rw [download_fs_eq_tryFS env fs0 hmk, tryFS_ok env fs0 dep hdlr]
  rw [convertStep_lookup_other env _ "yolov8n.pt" (by decide) (by decide)]
  exact relocatePt_clears_workdir _

/-- After a run whose loader call deposited content `c`, the output-path
primary artifact holds exactly `c`. -/
theorem download_modelsPt_of_deposit (env : Env) (fs0 : FS) (c : Content)
    (hmk : env.makedirsResult = none)
    (hdlr : env.downloadResult = .ok (some c)) :
    FS.lookup (download_yolov8n_models env fs0).fs "models/yolov8n.pt" = some c := by
  rw [download_fs_eq_tryFS env fs0 hmk, tryFS_ok env fs0 (some c) hdlr]
  rw [convertStep_lookup_other env _ "models/yolov8n.pt" (by decide) (by decide)]
  exact relocatePt_moves _ c (by simp [applyDeposit, FS.lookup_setFile])

theorem pathExists_false_iff (fs : FS) (p : String) :
    FS.pathExists fs p = false ↔ FS.lookup fs p = none := by
  rw [FS.pathExists]
  cases FS.lookup fs p <;> simp

/-- Unfolding of `relocatePt` when the working-directory file exists. -/
theorem relocatePt_pos (fs : FS) (h : FS.pathExists fs "yolov8n.pt" = true) :
    relocatePt fs =
      (FS.rename fs "yolov8n.pt" "models/yolov8n.pt",
       [Event.renameOp "yolov8n.pt" "models/yolov8n.pt"]) := by
  unfold relocatePt
  rw [if_pos h]

/-- Unfolding of `relocatePt` when the working-directory file is absent. -/
theorem relocatePt_neg (fs : FS) (h : FS.pathExists fs "yolov8n.pt" = false) :
    relocatePt fs = (fs, []) := by
  unfold relocatePt
  rw [if_neg (by simp [h])]

/-! ### Claim theorems -/

/-- C3: the Verifier returns true iff both `models/yolov8n.pt` and
`models/yolov8n.onnx` exist, printing exactly one Found/Missing line per
artifact (in dict order), testing existence only.  It is a pure function
of the filesystem: its type returns no filesystem, so it has no
filesystem side effect by construction. -/
theorem C3_verifier_existence_iff (fs : FS) :
    ((verify_downloads fs).1 = true ↔
      (FS.pathExists fs "models/yolov8n.pt" = true ∧
       FS.pathExists fs "models/yolov8n.onnx" = true)) ∧
    (verify_downloads fs).2 =
      ["PyTorch model: " ++
         (if FS.pathExists fs "models/yolov8n.pt" then "Found" else "Missing") ++
         " at " ++ "models/yolov8n.pt",
       "ONNX model: " ++
         (if FS.pathExists fs "models/yolov8n.onnx" then "Found" else "Missing") ++
         " at " ++ "models/yolov8n.onnx"] := by
  constructor
  · simp [verify_downloads, required_files, Bool.and_eq_true]
  · simp [verify_downloads, required_files, verifyLine]

/-- C2 counterexample: a filesystem failure during directory creation is
NOT caught at the Acquirer level.  With `os.makedirs` raising
"Permission denied", the Acquirer terminates by that exception (no
diagnostic is printed, nothing is degraded). -/
theorem C2_counterexample_makedirs_uncaught :
    download_yolov8n_models
        ⟨some "Permission denied", Except.ok none, Except.ok (), Except.ok none⟩ [] =
      ⟨[], [], [Event.makedirsCall "models"], Outcome.raised "Permission denied"⟩ := by
  rfl

/-- C2 amended: a filesystem failure raised during creation of the output
directory (step 1, before the `try` at line 10) is not caught by the
Acquirer: it escapes `download_yolov8n_models` with no printed
diagnostic.  Only failures inside steps 2-6 are degraded to printed
output. -/
theorem C2_amended_makedirs_failure_escapes (env : Env) (fs0 : FS) (e : String)
    (hmk : env.makedirsResult = some e) :
    download_yolov8n_models env fs0 =
      ⟨fs0, [], [Event.makedirsCall "models"], Outcome.raised e⟩ := by
  unfold download_yolov8n_models
  rw [hmk]

/-- Witness for C2 amended at a concrete failing makedirs. -/
theorem C2_amended_makedirs_failure_escapes_witness :
    download_yolov8n_models
        ⟨some "disk full", Except.ok none, Except.ok (), Except.ok none⟩
        [("models/yolov8n.pt", [1])] =
      ⟨[("models/yolov8n.pt", [1])], [], [Event.makedirsCall "models"],
       Outcome.raised "disk full"⟩ :=
  C2_amended_makedirs_failure_escapes
    ⟨some "disk full", Except.ok none, Except.ok (), Except.ok none⟩
    [("models/yolov8n.pt", [1])] "disk full" rfl

/-- C1: every exception raised by the loader or the converter inside the
Acquirer's try block is caught there: the Acquirer prints the error
message and the remediation hint, returns normally without re-raising,
and the entry point still runs the Verifier and prints a summary line. -/
theorem C1_acquirer_catches_verifier_still_runs (env : Env) (fs0 : FS)
    (e : String) (fsr : FS) (outr : List String) (evr : List Event)
    (hmk : env.makedirsResult = none)
    (hraise : acquirerTry env fs0 = .inr (e, fsr, outr, evr)) :
    (download_yolov8n_models env fs0).outcome = Outcome.normal ∧
    (download_yolov8n_models env fs0).out =
      outr ++ ["Error downloading models: " ++ e,
               "Please make sure you have the latest ultralytics package installed:",
               "pip install --upgrade ultralytics"] ∧
    (mainRun env fs0).out =
      outr ++ ["Error downloading models: " ++ e,
               "Please make sure you have the latest ultralytics package installed:",
               "pip install --upgrade ultralytics"]
           ++ (verify_downloads fsr).2
           ++ [if (verify_downloads fsr).1 then "All model files downloaded successfully!"
               else "Some model files failed to download. Please check errors above."] := by
  have hdl : download_yolov8n_models env fs0 =
      { fs := fsr,
        out := outr ++ ["Error downloading models: " ++ e,
                "Please make sure you have the latest ultralytics package installed:",
                "pip install --upgrade ultralytics"],
        events := Event.makedirsCall "models" :: evr,
        outcome := Outcome.normal } := by
    unfold download_yolov8n_models
    rw [hmk, hraise]
  refine ⟨by rw [hdl], by rw [hdl], ?_⟩
  simp [mainRun, hdl]

/-- Witness for C1 at a concrete failing loader. -/
theorem C1_acquirer_catches_verifier_still_runs_witness :
    (download_yolov8n_models ⟨none, Except.error "boom", Except.ok (), Except.ok none⟩ []).outcome
        = Outcome.normal ∧
    (download_yolov8n_models ⟨none, Except.error "boom", Except.ok (), Except.ok none⟩ []).out =
      ["Downloading YOLOv8n PyTorch model..."] ++
        ["Error downloading models: " ++ "boom",
         "Please make sure you have the latest ultralytics package installed:",
         "pip install --upgrade ultralytics"] ∧
    (mainRun ⟨none, Except.error "boom", Except.ok (), Except.ok none⟩ []).out =
      ["Downloading YOLOv8n PyTorch model..."] ++
        ["Error downloading models: " ++ "boom",
         "Please make sure you have the latest ultralytics package installed:",
         "pip install --upgrade ultralytics"]
        ++ (verify_downloads []).2
        ++ [if (verify_downloads []).1 then "All model files downloaded successfully!"
            else "Some model files failed to download. Please check errors above."] :=
  C1_acquirer_catches_verifier_still_runs
    ⟨none, Except.error "boom", Except.ok (), Except.ok none⟩ [] "boom" []
    ["Downloading YOLOv8n PyTorch model..."] [Event.yoloLoad "yolov8n.pt"] rfl rfl

/-- C8 counterexample: the entry point does NOT run the Verifier and does
NOT exit normally in every case.  When `os.makedirs` raises, the
exception propagates through the entry point: no Verifier line and no
summary line is printed and the process terminates abnormally. -/
theorem C8_counterexample_makedirs_aborts_run :
    (mainRun ⟨some "disk full", Except.ok none, Except.ok (), Except.ok none⟩ []).outcome
        = Outcome.raised "disk full" ∧
    (mainRun ⟨some "disk full", Except.ok none, Except.ok (), Except.ok none⟩ []).out = [] := by
  exact ⟨rfl, rfl⟩

/-- C8 amended: whenever directory creation succeeds, the entry point
invokes the Acquirer, then the Verifier unconditionally (even after a
caught Acquirer failure), then prints exactly one summary line selected
by the Verifier's boolean result, and terminates normally; a
directory-creation failure instead propagates uncaught and the Verifier
never runs. -/
theorem C8_amended_entry_point_flow (env : Env) (fs0 : FS)
    (hmk : env.makedirsResult = none) :
    (download_yolov8n_models env fs0).outcome = Outcome.normal ∧
    (mainRun env fs0).outcome = Outcome.normal ∧
    (mainRun env fs0).out =
      (download_yolov8n_models env fs0).out
        ++ (verify_downloads (download_yolov8n_models env fs0).fs).2
        ++ [if (verify_downloads (download_yolov8n_models env fs0).fs).1 then
              "All model files downloaded successfully!"
            else
              "Some model files failed to download. Please check errors above."] := by
  have hout := download_outcome_normal env fs0 hmk
  refine ⟨hout, ?_, ?_⟩ <;> simp [mainRun, hout]

/-- Witness for C8 amended at a concrete successful makedirs. -/
theorem C8_amended_entry_point_flow_witness :
    (download_yolov8n_models ⟨none, Except.ok none, Except.ok (), Except.ok none⟩ []).outcome
        = Outcome.normal ∧
    (mainRun ⟨none, Except.ok none, Except.ok (), Except.ok none⟩ []).outcome = Outcome.normal ∧
    (mainRun ⟨none, Except.ok none, Except.ok (), Except.ok none⟩ []).out =
      (download_yolov8n_models ⟨none, Except.ok none, Except.ok (), Except.ok none⟩ []).out
        ++ (verify_downloads (download_yolov8n_models ⟨none, Except.ok none, Except.ok (), Except.ok none⟩ []).fs).2
        ++ [if (verify_downloads (download_yolov8n_models ⟨none, Except.ok none, Except.ok (), Except.ok none⟩ []).fs).1 then
              "All model files downloaded successfully!"
            else
              "Some model files failed to download. Please check errors above."] :=
  C8_amended_entry_point_flow ⟨none, Except.ok none, Except.ok (), Except.ok none⟩ [] rfl

/-- C10: the Acquirer is not atomic on error.  Concrete run: the loader
deposits the primary artifact, it is relocated to `models/yolov8n.pt`,
then the conversion-time load raises; the handler catches it, the run
ends with the primary present and the secondary missing, and the
Verifier reports Found for one, Missing for the other, returning false,
so the entry point prints the "some files failed" summary. -/
theorem C10_partial_state_on_error :
    FS.lookup (download_yolov8n_models
        ⟨none, Except.ok (some [7]), Except.error "conversion failed", Except.ok none⟩ []).fs
        "models/yolov8n.pt" = some [7] ∧
    FS.lookup (download_yolov8n_models
        ⟨none, Except.ok (some [7]), Except.error "conversion failed", Except.ok none⟩ []).fs
        "models/yolov8n.onnx" = none ∧
    (download_yolov8n_models
        ⟨none, Except.ok (some [7]), Except.error "conversion failed", Except.ok none⟩ []).outcome
        = Outcome.normal ∧
    verify_downloads (download_yolov8n_models
        ⟨none, Except.ok (some [7]), Except.error "conversion failed", Except.ok none⟩ []).fs =
      (false, ["PyTorch model: Found at models/yolov8n.pt",
               "ONNX model: Missing at models/yolov8n.onnx"]) ∧
    (mainRun ⟨none, Except.ok (some [7]), Except.error "conversion failed", Except.ok none⟩ []).out =
      ["Downloading YOLOv8n PyTorch model...",
       "Converting to ONNX format...",
       "Error downloading models: conversion failed",
       "Please make sure you have the latest ultralytics package installed:",
       "pip install --upgrade ultralytics",
       "PyTorch model: Found at models/yolov8n.pt",
       "ONNX model: Missing at models/yolov8n.onnx",
       "Some model files failed to download. Please check errors above."] := by
  exact ⟨rfl, rfl, rfl, rfl, rfl⟩

/-- C5 counterexample: a relocated artifact CAN be mutated by a later
run.  Start with `models/yolov8n.pt` holding content `[1]` (already
relocated) and a fresh `yolov8n.pt` with content `[2]` in the working
directory; the run re-relocates and `os.rename` silently replaces the
output file, changing its content from `[1]` to `[2]`. -/
theorem C5_counterexample_primary_overwritten :
    FS.lookup
        [("models/yolov8n.pt", ([1] : Content)), ("models/yolov8n.onnx", [5]), ("yolov8n.pt", [2])]
        "models/yolov8n.pt" = some [1] ∧
    FS.lookup (download_yolov8n_models ⟨none, Except.ok none, Except.ok (), Except.ok none⟩
        [("models/yolov8n.pt", [1]), ("models/yolov8n.onnx", [5]), ("yolov8n.pt", [2])]).fs
        "models/yolov8n.pt" = some [2] := by
  exact ⟨rfl, rfl⟩

/-- C5 amended: for every run, no relocated artifact is ever deleted by a
later step or run — the primary's existence is invariant even in runs
where the conversion machinery executes — and the relocated secondary
artifact, once present, is never mutated (its presence short-circuits
reconversion); but because relocation of a fresh primary is always
re-attempted and `os.rename` replaces its destination, the primary
artifact's content can be overwritten — only its existence is
invariant. -/
theorem C5_amended_no_delete_secondary_immutable (env : Env) (fs0 : FS) :
    (∀ c, FS.lookup fs0 "models/yolov8n.onnx" = some c →
        FS.lookup (download_yolov8n_models env fs0).fs "models/yolov8n.onnx" = some c) ∧
    (FS.pathExists fs0 "models/yolov8n.pt" = true →
        FS.pathExists (download_yolov8n_models env fs0).fs "models/yolov8n.pt" = true) := by
  cases hmk : env.makedirsResult with
  | some e =>
      constructor
      · intro c honnx
        simpa [download_yolov8n_models, hmk] using honnx
      · intro hpt
        simpa [download_yolov8n_models, hmk] using hpt
  | none =>
      cases hdlr : env.downloadResult with
      | error e =>
          rw [download_fs_eq_tryFS env fs0 hmk, tryFS_error env fs0 e hdlr]
          exact ⟨fun c h => h, fun h => h⟩
      | ok dep =>
          constructor
          · intro c honnx
            have h1 : FS.lookup (applyDeposit fs0 "yolov8n.pt" dep) "models/yolov8n.onnx" = some c := by
              rw [lookup_applyDeposit_of_ne fs0 _ _ dep (by decide)]
              exact honnx
            have h3 : FS.lookup (relocatePt (applyDeposit fs0 "yolov8n.pt" dep)).1 "models/yolov8n.onnx" = some c := by
              rw [relocatePt_lookup_other _ _ (by decide) (by decide)]
              exact h1
            have h5 : convertStep env (relocatePt (applyDeposit fs0 "yolov8n.pt" dep)).1 =
                .inl ((relocatePt (applyDeposit fs0 "yolov8n.pt" dep)).1, []) :=
              convertStep_skip env _ (by rw [FS.pathExists, h3]; rfl)
            rw [download_fs_eq_tryFS env fs0 hmk, tryFS_ok env fs0 dep hdlr, h5]
            exact h3
          · intro hpt
            have h2 : FS.pathExists (applyDeposit fs0 "yolov8n.pt" dep) "models/yolov8n.pt" = true := by
              rw [FS.pathExists, lookup_applyDeposit_of_ne fs0 _ _ dep (by decide)]
              exact hpt
            have h4 : FS.pathExists (relocatePt (applyDeposit fs0 "yolov8n.pt" dep)).1 "models/yolov8n.pt" = true :=
              relocatePt_preserves_modelsPt _ h2
            have h6 : FS.lookup (stepFS (convertStep env (relocatePt (applyDeposit fs0 "yolov8n.pt" dep)).1))
                "models/yolov8n.pt"
                = FS.lookup (relocatePt (applyDeposit fs0 "yolov8n.pt" dep)).1 "models/yolov8n.pt" :=
              convertStep_lookup_other env _ _ (by decide) (by decide)
            rw [download_fs_eq_tryFS env fs0 hmk, tryFS_ok env fs0 dep hdlr, FS.pathExists, h6]
            exact h4

/-- Witness for C5 amended: secondary immutability on a populated output
directory, and primary-existence invariance on the primary-only partial
state, where the export actually executes. -/
theorem C5_amended_no_delete_secondary_immutable_witness :
    FS.lookup (download_yolov8n_models ⟨none, Except.ok none, Except.ok (), Except.ok (some [9])⟩
        [("models/yolov8n.pt", [1]), ("models/yolov8n.onnx", [5])]).fs
        "models/yolov8n.onnx" = some [5] ∧
    FS.pathExists (download_yolov8n_models ⟨none, Except.ok none, Except.ok (), Except.ok (some [9])⟩
        [("models/yolov8n.pt", [7])]).fs
        "models/yolov8n.pt" = true :=
  ⟨(C5_amended_no_delete_secondary_immutable
      ⟨none, Except.ok none, Except.ok (), Except.ok (some [9])⟩
      [("models/yolov8n.pt", [1]), ("models/yolov8n.onnx", [5])]).1 [5] rfl,
   (C5_amended_no_delete_secondary_immutable
      ⟨none, Except.ok none, Except.ok (), Except.ok (some [9])⟩
      [("models/yolov8n.pt", [7])]).2 rfl⟩

/-- C6: after the loader call, the Acquirer performs the move
`yolov8n.pt` to `models/yolov8n.pt` if and only if a file named
`yolov8n.pt` exists in the working directory at that point; when no such
file exists, step 3 changes nothing and emits nothing. -/
theorem C6_relocation_iff_workdir_file (env : Env) (fs0 : FS) (dep : Option Content)
    (hmk : env.makedirsResult = none)
    (hdlr : env.downloadResult = .ok dep) :
    (Event.renameOp "yolov8n.pt" "models/yolov8n.pt"
        ∈ (download_yolov8n_models env fs0).events
      ↔ FS.pathExists (applyDeposit fs0 "yolov8n.pt" dep) "yolov8n.pt" = true) ∧
    (FS.pathExists (applyDeposit fs0 "yolov8n.pt" dep) "yolov8n.pt" = false →
      relocatePt (applyDeposit fs0 "yolov8n.pt" dep) =
        (applyDeposit fs0 "yolov8n.pt" dep, [])) ∧
    (FS.pathExists (applyDeposit fs0 "yolov8n.pt" dep) "yolov8n.pt" = true →
      relocatePt (applyDeposit fs0 "yolov8n.pt" dep) =
        (FS.rename (applyDeposit fs0 "yolov8n.pt" dep) "yolov8n.pt" "models/yolov8n.pt",
         [Event.renameOp "yolov8n.pt" "models/yolov8n.pt"])) := by
  refine ⟨?_, fun h => relocatePt_neg _ h, fun h => relocatePt_pos _ h⟩
  by_cases hex : FS.pathExists (applyDeposit fs0 "yolov8n.pt" dep) "yolov8n.pt" = true
  · constructor
    · intro _; exact hex
    · intro _
      rw [download_events_eq env fs0 hmk, tryEvents_ok env fs0 dep hdlr,
          relocatePt_pos _ hex]
      simp
  · have hex2 : FS.pathExists (applyDeposit fs0 "yolov8n.pt" dep) "yolov8n.pt" = false := by
      simpa using hex
    constructor
    · intro hmem
      rw [download_events_eq env fs0 hmk, tryEvents_ok env fs0 dep hdlr] at hmem
      have hre2 : (relocatePt (applyDeposit fs0 "yolov8n.pt" dep)).2 = [] := by
        rw [relocatePt_neg _ hex2]
      rw [hre2] at hmem
      rcases convertStep_events_cases env (relocatePt (applyDeposit fs0 "yolov8n.pt" dep)).1
        with hce | hce | hce | hce <;>
        rw [hce] at hmem <;>
        exact absurd hmem (by decide)
    · intro h
      exact absurd h (by simp [hex2])

/-- Witness for C6 at a concrete deposited download. -/
theorem C6_relocation_iff_workdir_file_witness :
    (Event.renameOp "yolov8n.pt" "models/yolov8n.pt"
        ∈ (download_yolov8n_models ⟨none, Except.ok (some [3]), Except.ok (), Except.ok none⟩ []).events
      ↔ FS.pathExists (applyDeposit [] "yolov8n.pt" (some [3])) "yolov8n.pt" = true) ∧
    (FS.pathExists (applyDeposit [] "yolov8n.pt" (some [3])) "yolov8n.pt" = false →
      relocatePt (applyDeposit [] "yolov8n.pt" (some [3])) =
        (applyDeposit [] "yolov8n.pt" (some [3]), [])) ∧
    (FS.pathExists (applyDeposit [] "yolov8n.pt" (some [3])) "yolov8n.pt" = true →
      relocatePt (applyDeposit [] "yolov8n.pt" (some [3])) =
        (FS.rename (applyDeposit [] "yolov8n.pt" (some [3])) "yolov8n.pt" "models/yolov8n.pt",
         [Event.renameOp "yolov8n.pt" "models/yolov8n.pt"])) :=
  C6_relocation_iff_workdir_file
    ⟨none, Except.ok (some [3]), Except.ok (), Except.ok none⟩ [] (some [3]) rfl rfl

/-- C7: whenever the conversion step runs (the secondary output is absent
at the check), the model is loaded from the output-directory path
`models/yolov8n.pt` — the only load identifiers a run ever uses are the
download identifier `yolov8n.pt` and this output path — and the export is
invoked with format `onnx` and fixed input shape `[640, 640]` (every
export call a run makes carries exactly these arguments). -/
theorem C7_conversion_from_output_path_fixed_shape (env : Env) (fs0 : FS) (dep : Option Content)
    (hmk : env.makedirsResult = none)
    (hdlr : env.downloadResult = .ok dep)
    (hload : env.loadPtResult = .ok ())
    (honnx : FS.pathExists (relocatePt (applyDeposit fs0 "yolov8n.pt" dep)).1
        "models/yolov8n.onnx" = false) :
    Event.yoloLoad "models/yolov8n.pt" ∈ (download_yolov8n_models env fs0).events ∧
    Event.exportCall "onnx" [640, 640] ∈ (download_yolov8n_models env fs0).events ∧
    (∀ f sz, Event.exportCall f sz ∈ (download_yolov8n_models env fs0).events →
        f = "onnx" ∧ sz = [640, 640]) ∧
    (∀ i, Event.yoloLoad i ∈ (download_yolov8n_models env fs0).events →
        i = "yolov8n.pt" ∨ i = "models/yolov8n.pt") := by
  rw [download_events_eq env fs0 hmk, tryEvents_ok env fs0 dep hdlr]
  have hconv :
      stepEvents (convertStep env (relocatePt (applyDeposit fs0 "yolov8n.pt" dep)).1) =
        [Event.yoloLoad "models/yolov8n.pt", Event.exportCall "onnx" [640, 640]] ∨
      stepEvents (convertStep env (relocatePt (applyDeposit fs0 "yolov8n.pt" dep)).1) =
        [Event.yoloLoad "models/yolov8n.pt", Event.exportCall "onnx" [640, 640],
         Event.renameOp "yolov8n.onnx" "models/yolov8n.onnx"] := by
    unfold convertStep
    rw [if_neg (by simp [honnx]), hload]
    cases hexp : env.exportResult with
    | error e => left; rfl
    | ok dep2 =>
        simp only []
        split
        · right; rfl
        · left; rfl
  rcases relocatePt_events_cases (applyDeposit fs0 "yolov8n.pt" dep) with hre | hre <;>
    rcases hconv with hce | hce <;>
    rw [hre, hce] <;>
    exact ⟨by decide, by decide,
           fun f sz h => by simp at h; tauto,
           fun i h => by simp at h; tauto⟩

/-- Witness for C7 at a concrete run with an absent secondary output. -/
theorem C7_conversion_from_output_path_fixed_shape_witness :
    Event.yoloLoad "models/yolov8n.pt"
        ∈ (download_yolov8n_models ⟨none, Except.ok (some [3]), Except.ok (), Except.ok (some [4])⟩ []).events ∧
    Event.exportCall "onnx" [640, 640]
        ∈ (download_yolov8n_models ⟨none, Except.ok (some [3]), Except.ok (), Except.ok (some [4])⟩ []).events ∧
    ("onnx" = "onnx" ∧ ([640, 640] : List Nat) = [640, 640]) ∧
    ("yolov8n.pt" = "yolov8n.pt" ∨ "yolov8n.pt" = "models/yolov8n.pt") := by
  have h := C7_conversion_from_output_path_fixed_shape
    ⟨none, Except.ok (some [3]), Except.ok (), Except.ok (some [4])⟩ [] (some [3])
    rfl rfl rfl (by decide)
  refine ⟨h.1, h.2.1, ?_, ?_⟩
  · exact h.2.2.1 "onnx" [640, 640] h.2.1
  · left; rfl

/-- C9: starting from an output directory containing neither artifact,
when the loader deposits a non-empty primary file and the converter
succeeds and deposits a non-empty secondary file, the Acquirer ends with
both `models/yolov8n.pt` and `models/yolov8n.onnx` present and
non-empty. -/
theorem C9_success_produces_both_artifacts (env : Env) (fs0 : FS) (c d : Content)
    (hmk : env.makedirsResult = none)
    (hdlr : env.downloadResult = .ok (some c)) (hc : c ≠ [])
    (hload : env.loadPtResult = .ok ())
    (hexp : env.exportResult = .ok (some d)) (hd : d ≠ [])
    (hpt0 : FS.lookup fs0 "models/yolov8n.pt" = none)
    (honnx0 : FS.lookup fs0 "models/yolov8n.onnx" = none) :
    FS.lookup (download_yolov8n_models env fs0).fs "models/yolov8n.pt" = some c ∧ c ≠ [] ∧
    FS.lookup (download_yolov8n_models env fs0).fs "models/yolov8n.onnx" = some d ∧ d ≠ [] := by
  have hpt := download_modelsPt_of_deposit env fs0 c hmk hdlr
  have h1 : FS.lookup (applyDeposit fs0 "yolov8n.pt" (some c)) "models/yolov8n.onnx" = none := by
    rw [lookup_applyDeposit_of_ne fs0 _ _ _ (by decide)]
    exact honnx0
  have h2 : FS.lookup (relocatePt (applyDeposit fs0 "yolov8n.pt" (some c))).1
      "models/yolov8n.onnx" = none := by
    rw [relocatePt_lookup_other _ _ (by decide) (by decide)]
    exact h1
  have h3 : FS.lookup (applyDeposit (relocatePt (applyDeposit fs0 "yolov8n.pt" (some c))).1
      "yolov8n.onnx" (some d)) "yolov8n.onnx" = some d := by
    simp [applyDeposit, FS.lookup_setFile]
  have h4 : convertStep env (relocatePt (applyDeposit fs0 "yolov8n.pt" (some c))).1 =
      .inl (FS.rename (applyDeposit (relocatePt (applyDeposit fs0 "yolov8n.pt" (some c))).1
              "yolov8n.onnx" (some d)) "yolov8n.onnx" "models/yolov8n.onnx",
            [Event.yoloLoad "models/yolov8n.pt", Event.exportCall "onnx" [640, 640],
             Event.renameOp "yolov8n.onnx" "models/yolov8n.onnx"]) := by
    unfold convertStep
    rw [if_neg (by simp [FS.pathExists, h2]), hload, hexp]
    simp only []
    rw [if_pos (by rw [FS.pathExists, h3]; rfl)]
  have h5 : FS.lookup (download_yolov8n_models env fs0).fs "models/yolov8n.onnx" = some d := by
    rw [download_fs_eq_tryFS env fs0 hmk, tryFS_ok env fs0 (some c) hdlr, h4]
    exact FS.lookup_rename_dst _ _ _ d h3
  exact ⟨hpt, hc, h5, hd⟩

/-- Witness for C9 at a concrete successful run from an empty state. -/
theorem C9_success_produces_both_artifacts_witness :
    FS.lookup (download_yolov8n_models
        ⟨none, Except.ok (some [1]), Except.ok (), Except.ok (some [2])⟩ []).fs
        "models/yolov8n.pt" = some [1] ∧ ([1] : Content) ≠ [] ∧
    FS.lookup (download_yolov8n_models
        ⟨none, Except.ok (some [1]), Except.ok (), Except.ok (some [2])⟩ []).fs
        "models/yolov8n.onnx" = some [2] ∧ ([2] : Content) ≠ [] :=
  C9_success_produces_both_artifacts
    ⟨none, Except.ok (some [1]), Except.ok (), Except.ok (some [2])⟩ [] [1] [2]
    rfl rfl (by decide) rfl rfl (by decide) rfl rfl

/-- C4: when `models/yolov8n.onnx` exists after a first run, a second run
of the Acquirer from that state (under the same external behaviour)
performs no export and no conversion-time load, and leaves the content of
both artifact files unchanged. -/
theorem C4_second_run_no_conversion_unchanged (env : Env) (fs0 : FS)
    (honnx : FS.pathExists (download_yolov8n_models env fs0).fs "models/yolov8n.onnx" = true) :
    (∀ f sz, Event.exportCall f sz ∉
        (download_yolov8n_models env (download_yolov8n_models env fs0).fs).events) ∧
    Event.yoloLoad "models/yolov8n.pt" ∉
        (download_yolov8n_models env (download_yolov8n_models env fs0).fs).events ∧
    FS.lookup (download_yolov8n_models env (download_yolov8n_models env fs0).fs).fs
        "models/yolov8n.pt"
      = FS.lookup (download_yolov8n_models env fs0).fs "models/yolov8n.pt" ∧
    FS.lookup (download_yolov8n_models env (download_yolov8n_models env fs0).fs).fs
        "models/yolov8n.onnx"
      = FS.lookup (download_yolov8n_models env fs0).fs "models/yolov8n.onnx" := by
  cases hmk : env.makedirsResult with
  | some e => simp [download_yolov8n_models, hmk]
  | none =>
      cases hdlr : env.downloadResult with
      | error e =>
          rw [download_fs_eq_tryFS env (download_yolov8n_models env fs0).fs hmk,
              tryFS_error env (download_yolov8n_models env fs0).fs e hdlr,
              download_events_eq env (download_yolov8n_models env fs0).fs hmk,
              tryEvents_error env (download_yolov8n_models env fs0).fs e hdlr]
          refine ⟨by simp, by decide, rfl, rfl⟩
      | ok dep =>
          have hwd : FS.lookup (download_yolov8n_models env fs0).fs "yolov8n.pt" = none :=
            download_clears_workdirPt env fs0 dep hmk hdlr
          have honnx1 : FS.lookup (applyDeposit (download_yolov8n_models env fs0).fs
              "yolov8n.pt" dep) "models/yolov8n.onnx"
              = FS.lookup (download_yolov8n_models env fs0).fs "models/yolov8n.onnx" :=
            lookup_applyDeposit_of_ne _ _ _ dep (by decide)
          have honnx2 : FS.lookup (relocatePt (applyDeposit (download_yolov8n_models env fs0).fs
              "yolov8n.pt" dep)).1 "models/yolov8n.onnx"
              = FS.lookup (download_yolov8n_models env fs0).fs "models/yolov8n.onnx" := by
            rw [relocatePt_lookup_other _ _ (by decide) (by decide)]
            exact honnx1
          have hskip : convertStep env (relocatePt (applyDeposit (download_yolov8n_models env fs0).fs
              "yolov8n.pt" dep)).1 =
              .inl ((relocatePt (applyDeposit (download_yolov8n_models env fs0).fs
                "yolov8n.pt" dep)).1, []) := by
            refine convertStep_skip env _ ?_
            rw [FS.pathExists, honnx2]
            rw [FS.pathExists] at honnx
            exact honnx
          have hfs2 : (download_yolov8n_models env (download_yolov8n_models env fs0).fs).fs =
              (relocatePt (applyDeposit (download_yolov8n_models env fs0).fs
                "yolov8n.pt" dep)).1 := by
            rw [download_fs_eq_tryFS env (download_yolov8n_models env fs0).fs hmk,
                tryFS_ok env (download_yolov8n_models env fs0).fs dep hdlr, hskip]
            rfl
          have hptEq : FS.lookup (relocatePt (applyDeposit (download_yolov8n_models env fs0).fs
              "yolov8n.pt" dep)).1 "models/yolov8n.pt"
              = FS.lookup (download_yolov8n_models env fs0).fs "models/yolov8n.pt" := by
            cases hdep : dep with
            | none =>
                rw [relocatePt_noop (applyDeposit (download_yolov8n_models env fs0).fs
                      "yolov8n.pt" none) hwd]
                rfl
            | some c =>
                have hmov : FS.lookup (applyDeposit (download_yolov8n_models env fs0).fs
                    "yolov8n.pt" (some c)) "yolov8n.pt" = some c := by
                  simp [applyDeposit, FS.lookup_setFile]
                rw [relocatePt_moves _ c hmov]
                rw [download_modelsPt_of_deposit env fs0 c hmk (by rw [hdlr, hdep])]
          rw [download_events_eq env (download_yolov8n_models env fs0).fs hmk,
              tryEvents_ok env (download_yolov8n_models env fs0).fs dep hdlr, hskip]
          rcases relocatePt_events_cases (applyDeposit (download_yolov8n_models env fs0).fs
              "yolov8n.pt" dep) with hre | hre <;>
            rw [hre] <;>
            simp only [stepEvents, List.append_nil] <;>
            exact ⟨by simp, by decide, by rw [hfs2, hptEq], by rw [hfs2, honnx2]⟩

/-- Witness for C4 at a concrete populated first run. -/
theorem C4_second_run_no_conversion_unchanged_witness :
    (Event.exportCall "onnx" [640, 640] ∉
        (download_yolov8n_models ⟨none, Except.ok (some [3]), Except.ok (), Except.ok (some [4])⟩
          (download_yolov8n_models ⟨none, Except.ok (some [3]), Except.ok (), Except.ok (some [4])⟩ []).fs).events) ∧
    Event.yoloLoad "models/yolov8n.pt" ∉
        (download_yolov8n_models ⟨none, Except.ok (some [3]), Except.ok (), Except.ok (some [4])⟩
          (download_yolov8n_models ⟨none, Except.ok (some [3]), Except.ok (), Except.ok (some [4])⟩ []).fs).events ∧
    FS.lookup (download_yolov8n_models ⟨none, Except.ok (some [3]), Except.ok (), Except.ok (some [4])⟩
          (download_yolov8n_models ⟨none, Except.ok (some [3]), Except.ok (), Except.ok (some [4])⟩ []).fs).fs
        "models/yolov8n.pt"
      = FS.lookup (download_yolov8n_models ⟨none, Except.ok (some [3]), Except.ok (), Except.ok (some [4])⟩ []).fs
        "models/yolov8n.pt" ∧
    FS.lookup (download_yolov8n_models ⟨none, Except.ok (some [3]), Except.ok (), Except.ok (some [4])⟩
          (download_yolov8n_models ⟨none, Except.ok (some [3]), Except.ok (), Except.ok (some [4])⟩ []).fs).fs
        "models/yolov8n.onnx"
      = FS.lookup (download_yolov8n_models ⟨none, Except.ok (some [3]), Except.ok (), Except.ok (some [4])⟩ []).fs
        "models/yolov8n.onnx" := by
  have h := C4_second_run_no_conversion_unchanged
    ⟨none, Except.ok (some [3]), Except.ok (), Except.ok (some [4])⟩ [] (by decide)
  exact ⟨h.1 "onnx" [640, 640], h.2.1, h.2.2.1, h.2.2.2⟩

end DivyaDrishti
